import Mathlib

/-!
# Verification of the afterink displacement / export engine

Shallow embedding of the displacement rendering and deterministic export
engine of the afterink repository:

* the phase clock (live ticker callback and export loop of
  `src/lib/useDisplacementEngine.ts`), over `ℚ`;
* the `TimeVector` uniform `(cos (2*pi*t), sin (2*pi*t))`, over `ℝ`;
* the fragment shader's noise kernel (`snoise`, `fbm`) and main body, over `ℝ`;
* the engine state machine (`loadImage`, `updateConfig`, `exportFrames`,
  `destroy`) with explicit state passing and an extraction oracle for
  `canvas.toBlob`;
* the frame sinks (`exportPngSequence` of `src/lib/exportPngSequence.ts`,
  `exportWebm` of `src/lib/exportWebm.ts`) and the `ExportPanel` busy guard.
-/

namespace Afterink

/-! ## Phase clock

From `src/lib/useDisplacementEngine.ts`: the live ticker callback
(lines 93–111) computes `t = (elapsed / loopDuration) % 1` and the export
loop (lines 224–235) computes `t = i / totalFrames`; both then apply the
posterize quantization `t = floor(t * stepsPerLoop) / stepsPerLoop` with
`stepsPerLoop = posterize * loopDuration` when `posterize > 0`. -/

/-- JavaScript truncation toward zero (used by the `%` remainder operator). -/
def jsTrunc (x : ℚ) : ℤ := if 0 ≤ x then ⌊x⌋ else ⌈x⌉

/-- JavaScript `x % 1`: remainder with the sign of the dividend,
`x - trunc(x)`. -/
def jsMod1 (x : ℚ) : ℚ := x - jsTrunc x

/-- The posterize quantization shared verbatim by the live ticker
(lines 104–107) and the export loop (lines 229–232): when `posterize > 0`,
snap `t` to `floor(t * stepsPerLoop) / stepsPerLoop` with
`stepsPerLoop = posterize * loopDuration`; at `posterize = 0` the raw
phase passes through unchanged. -/
def posterizePhase (posterize loopDuration t : ℚ) : ℚ :=
  if 0 < posterize then
    let stepsPerLoop := posterize * loopDuration
    (⌊t * stepsPerLoop⌋ : ℚ) / stepsPerLoop
  else t

/-- Live-mode phase: `t = (elapsed / loopDuration) % 1`, then posterize
(ticker callback, lines 98–107). -/
def livePhase (posterize loopDuration elapsed : ℚ) : ℚ :=
  posterizePhase posterize loopDuration (jsMod1 (elapsed / loopDuration))

/-- Export-mode phase for frame `i` of `N`: `t = i / totalFrames`, then
posterize (export loop, lines 224–232). -/
def exportPhase (posterize loopDuration : ℚ) (i N : ℕ) : ℚ :=
  posterizePhase posterize loopDuration ((i : ℚ) / (N : ℚ))

/-! ## TimeVector -/

/-- The `uTimeVec` uniform: `angle = t * PI * 2`,
`uTimeVec = [cos(angle), sin(angle)]` (lines 109–110 and 234–235). -/
noncomputable def TimeVector (phase : ℝ) : ℝ × ℝ :=
  (Real.cos (phase * Real.pi * 2), Real.sin (phase * Real.pi * 2))

/-- C1: For every frame index `i` and total `N` consistent with an
fps/loopDuration pair (`N = fps * loopDuration`), the export-mode phase at
frame `i` equals the live-mode phase at elapsed wall-clock time `i / fps`,
posterize quantization included; and at `posterize = 0` the raw phase
passes through the quantizer unchanged in both modes. -/
theorem export_live_phase_agree (fps loopDuration posterize : ℚ) (N i : ℕ)
    (hfps : 0 < fps) (hN : (N : ℚ) = fps * loopDuration) (hi : i < N) :
    exportPhase posterize loopDuration i N
      = livePhase posterize loopDuration ((i : ℚ) / fps)
    ∧ (∀ t : ℚ, posterizePhase 0 loopDuration t = t) := by
  have hN0 : 0 < N := by omega
  have hNQ : (0 : ℚ) < (N : ℚ) := by exact_mod_cast hN0
  have hiQ : (i : ℚ) < (N : ℚ) := by exact_mod_cast hi
  have hraw : (i : ℚ) / fps / loopDuration = (i : ℚ) / (N : ℚ) := by
    rw [div_div, ← hN]
  have h0 : (0 : ℚ) ≤ (i : ℚ) / (N : ℚ) :=
    div_nonneg (Nat.cast_nonneg i) (le_of_lt hNQ)
  have h1 : (i : ℚ) / (N : ℚ) < 1 := (div_lt_one hNQ).mpr hiQ
  have hfloor : ⌊(i : ℚ) / (N : ℚ)⌋ = 0 :=
    Int.floor_eq_zero_iff.mpr (Set.mem_Ico.mpr ⟨h0, h1⟩)
  constructor
  · unfold exportPhase livePhase jsMod1 jsTrunc
    rw [hraw, if_pos h0, hfloor]
    norm_num
  · intro t
    simp [posterizePhase]

/-- Witness for `export_live_phase_agree` at fps 24, loop duration 3 s,
posterize 4, 72 frames, frame index 5. -/
theorem export_live_phase_agree_witness :
    (0 : ℚ) < 24 ∧ ((72 : ℕ) : ℚ) = 24 * 3 ∧ 5 < 72 ∧
    (exportPhase 4 3 5 72 = livePhase 4 3 ((5 : ℚ) / 24)
      ∧ (∀ t : ℚ, posterizePhase 0 3 t = t)) :=
  ⟨by norm_num, by norm_num, by norm_num,
    export_live_phase_agree 24 3 4 72 5 (by norm_num) (by norm_num)
      (by norm_num)⟩

/-- C2: the seamless-loop invariant: `TimeVector 0 = TimeVector 1`
exactly. -/
theorem timeVector_seamless : TimeVector 0 = TimeVector 1 := by
  unfold TimeVector
  rw [show (0 : ℝ) * Real.pi * 2 = 0 by ring,
    show (1 : ℝ) * Real.pi * 2 = 2 * Real.pi by ring,
    Real.cos_zero, Real.sin_zero, Real.cos_two_pi, Real.sin_two_pi]

/-! ## Noise kernel

From the fragment shader in `src/lib/displacementShader.ts` (inlined in
`useDisplacementEngine.ts`'s module group): simplex 2D noise `snoise` and
the FBM octave summation `fbm`. -/

/-- GLSL `fract`: `x - floor(x)`. -/
noncomputable def glslFract (x : ℝ) : ℝ := x - (⌊x⌋ : ℝ)

/-- GLSL `floor` as a real-valued function. -/
noncomputable def glslFloor (x : ℝ) : ℝ := (⌊x⌋ : ℝ)

/-- Shader `mod289(x) = x - floor(x * (1.0 / 289.0)) * 289.0`
(componentwise). -/
noncomputable def mod289 (x : ℝ) : ℝ := x - glslFloor (x * (1 / 289)) * 289

/-- Shader `permute(x) = mod289(((x * 34.0) + 1.0) * x)` (componentwise). -/
noncomputable def permute (x : ℝ) : ℝ := mod289 (((x * 34) + 1) * x)

/-- Simplex 2D noise (Ashima Arts / Stefan Gustavson), translated
componentwise from the shader's `snoise`. -/
noncomputable def snoise (v : ℝ × ℝ) : ℝ :=
  let Cx : ℝ := 0.211324865405187
  let Cy : ℝ := 0.366025403784439
  let Cz : ℝ := -0.577350269189626
  let Cw : ℝ := 0.024390243902439
  -- First corner: i = floor(v + dot(v, C.yy)); x0 = v - i + dot(i, C.xx)
  let dvy := v.1 * Cy + v.2 * Cy
  let ix := glslFloor (v.1 + dvy)
  let iy := glslFloor (v.2 + dvy)
  let dix := ix * Cx + iy * Cx
  let x0x := v.1 - ix + dix
  let x0y := v.2 - iy + dix
  -- Other corners: i1 = (x0.x > x0.y) ? (1,0) : (0,1)
  let i1x : ℝ := if x0y < x0x then 1 else 0
  let i1y : ℝ := if x0y < x0x then 0 else 1
  -- x12 = x0.xyxy + C.xxzz; x12.xy -= i1
  let x12x := x0x + Cx - i1x
  let x12y := x0y + Cx - i1y
  let x12z := x0x + Cz
  let x12w := x0y + Cz
  -- Permutations: i = mod289(i);
  -- p = permute(permute(i.y + vec3(0, i1.y, 1)) + i.x + vec3(0, i1.x, 1))
  let imx := mod289 ix
  let imy := mod289 iy
  let px := permute (permute imy + imx)
  let py := permute (permute (imy + i1y) + imx + i1x)
  let pz := permute (permute (imy + 1) + imx + 1)
  -- m = max(0.5 - (dot(x0,x0), dot(x12.xy,x12.xy), dot(x12.zw,x12.zw)), 0);
  -- m = m*m; m = m*m
  let m0 := max (0.5 - (x0x * x0x + x0y * x0y)) 0
  let m1 := max (0.5 - (x12x * x12x + x12y * x12y)) 0
  let m2 := max (0.5 - (x12z * x12z + x12w * x12w)) 0
  let m0q := (m0 * m0) * (m0 * m0)
  let m1q := (m1 * m1) * (m1 * m1)
  let m2q := (m2 * m2) * (m2 * m2)
  -- x = 2*fract(p*C.w) - 1; h = |x| - 0.5; ox = floor(x + 0.5); a0 = x - ox
  let xg0 := 2 * glslFract (px * Cw) - 1
  let xg1 := 2 * glslFract (py * Cw) - 1
  let xg2 := 2 * glslFract (pz * Cw) - 1
  let h0 := |xg0| - 0.5
  let h1 := |xg1| - 0.5
  let h2 := |xg2| - 0.5
  let a00 := xg0 - glslFloor (xg0 + 0.5)
  let a01 := xg1 - glslFloor (xg1 + 0.5)
  let a02 := xg2 - glslFloor (xg2 + 0.5)
  -- m *= 1.79284291400159 - 0.85373472095314 * (a0*a0 + h*h)
  let mm0 := m0q * (1.79284291400159 - 0.85373472095314 * (a00 * a00 + h0 * h0))
  let mm1 := m1q * (1.79284291400159 - 0.85373472095314 * (a01 * a01 + h1 * h1))
  let mm2 := m2q * (1.79284291400159 - 0.85373472095314 * (a02 * a02 + h2 * h2))
  -- g.x = a0.x*x0.x + h.x*x0.y; g.yz = a0.yz*x12.xz + h.yz*x12.yw
  let g0 := a00 * x0x + h0 * x0y
  let g1 := a01 * x12x + h1 * x12y
  let g2 := a02 * x12z + h2 * x12w
  130 * (mm0 * g0 + mm1 * g1 + mm2 * g2)

/-- The shader's `fbm` loop body: `for (i = 0; i < 8; i++) { if (i >=
octaves) break; value += amplitude * snoise(p * frequency); frequency *=
2.0; amplitude *= 0.5; }`, with the remaining iteration count as fuel. -/
noncomputable def fbmLoop (p : ℝ × ℝ) (octaves : ℤ) :
    ℕ → ℕ → ℝ → ℝ → ℝ → ℝ
  | 0, _, value, _, _ => value
  | fuel + 1, i, value, amplitude, frequency =>
    if octaves ≤ (i : ℤ) then value
    else
      fbmLoop p octaves fuel (i + 1)
        (value + amplitude * snoise (p.1 * frequency, p.2 * frequency))
        (amplitude * 0.5) (frequency * 2)

/-- Shader `fbm`: value 0, amplitude 0.5, frequency 1.0,
`octaves = int(uOctaves)`, loop capped at 8 iterations. -/
noncomputable def fbm (p : ℝ × ℝ) (octaves : ℤ) : ℝ :=
  fbmLoop p octaves 8 0 0 0.5 1

/-- Loop invariant for the `fbm` octave summation. -/
theorem fbmLoop_spec (p : ℝ × ℝ) (oct : ℕ) :
    ∀ (fuel i : ℕ) (value amplitude frequency : ℝ),
      fbmLoop p (oct : ℤ) fuel i value amplitude frequency
        = value + ∑ j ∈ Finset.range (min (oct - i) fuel),
            (amplitude * (0.5 : ℝ) ^ j)
              * snoise (p.1 * (frequency * 2 ^ j), p.2 * (frequency * 2 ^ j)) := by
  intro fuel
  induction fuel with
  | zero => intro i value amplitude frequency; simp [fbmLoop]
  | succ fuel ih =>
    intro i value amplitude frequency
    by_cases hoct : oct ≤ i
    · have hcond : (oct : ℤ) ≤ (i : ℤ) := by exact_mod_cast hoct
      have hsub : oct - i = 0 := Nat.sub_eq_zero_of_le hoct
      simp [fbmLoop, hcond, hsub]
    · have hlt : i < oct := Nat.lt_of_not_le hoct
      have hcond : ¬ ((oct : ℤ) ≤ (i : ℤ)) := by exact_mod_cast hoct
      have hsub : oct - i = (oct - (i + 1)) + 1 := by omega
      rw [fbmLoop, if_neg hcond, ih]
      rw [hsub, Nat.succ_min_succ, Finset.sum_range_succ']
      rw [add_assoc]
      congr 1
      have hfirst :
          (amplitude * (0.5 : ℝ) ^ 0)
              * snoise (p.1 * (frequency * 2 ^ 0), p.2 * (frequency * 2 ^ 0))
            = amplitude * snoise (p.1 * frequency, p.2 * frequency) := by
        norm_num
      rw [hfirst, add_comm]
      congr 1
      apply Finset.sum_congr rfl
      intro j _
      rw [show frequency * 2 * (2 : ℝ) ^ j = frequency * 2 ^ (j + 1) by ring]
      ring

/-- C5: `fbm p octaves` equals the sum over octave `j < min octaves 8` of
`amplitude_j * snoise (p * frequency_j)` with `amplitude_j = 0.5 * 0.5^j`
(start 0.5, halving) and `frequency_j = 2^j` (start 1, doubling); the
octave count is clamped to the loop ceiling 8, counts below 8 are honored
exactly, and `octaves = 0` gives exactly 0. -/
theorem fbm_octave_sum (p : ℝ × ℝ) (oct : ℕ) :
    fbm p (oct : ℤ)
      = (∑ j ∈ Finset.range (min oct 8),
          (0.5 * (0.5 : ℝ) ^ j) * snoise (p.1 * 2 ^ j, p.2 * 2 ^ j))
    ∧ fbm p 0 = 0 := by
  have hmain : ∀ m : ℕ,
      fbm p (m : ℤ)
        = ∑ j ∈ Finset.range (min m 8),
            (0.5 * (0.5 : ℝ) ^ j) * snoise (p.1 * 2 ^ j, p.2 * 2 ^ j) := by
    intro m
    rw [fbm, fbmLoop_spec p m 8 0 0 0.5 1]
    rw [Nat.sub_zero, zero_add]
    apply Finset.sum_congr rfl
    intro j _
    rw [one_mul]
  refine ⟨hmain oct, ?_⟩
  have h0 := hmain 0
  simpa using h0

/-! ## Fragment shader main body -/

/-- An RGBA texel. -/
structure Vec4 where
  r : ℝ
  g : ℝ
  b : ℝ
  a : ℝ

/-- The shader's scalar/vector uniforms (`uSampler` is passed separately
as a texture function). -/
structure ShaderUniforms where
  resolutionX : ℝ
  resolutionY : ℝ
  timeVecX : ℝ
  timeVecY : ℝ
  amountPx : ℝ
  size : ℝ
  octaves : ℝ
  speed : ℝ
  seed : ℝ
  edgeStrength : ℝ
  edgeThreshold : ℝ

/-- GLSL `int()` conversion: truncation toward zero. -/
noncomputable def glslInt (x : ℝ) : ℤ := if 0 ≤ x then ⌊x⌋ else ⌈x⌉

/-- GLSL `clamp(x, lo, hi) = min(max(x, lo), hi)`. -/
noncomputable def glslClamp (x lo hi : ℝ) : ℝ := min (max x lo) hi

/-- GLSL `smoothstep(e0, e1, x)`. -/
noncomputable def smoothstep (e0 e1 x : ℝ) : ℝ :=
  (glslClamp ((x - e0) / (e1 - e0)) 0 1) * (glslClamp ((x - e0) / (e1 - e0)) 0 1)
    * (3 - 2 * (glslClamp ((x - e0) / (e1 - e0)) 0 1))

/-- GLSL `mix(x, y, a) = x * (1 - a) + y * a`. -/
noncomputable def glslMix (x y a : ℝ) : ℝ := x * (1 - a) + y * a

/-- `noiseCoord = uv * uResolution / uSize + circularTime + uSeed`, with
`circularTime = uTimeVec * uSpeed` (shader main, componentwise; the
scalar `uSeed` is added to both components). -/
noncomputable def noiseCoord (u : ShaderUniforms) (uv : ℝ × ℝ) : ℝ × ℝ :=
  (uv.1 * u.resolutionX / u.size + u.timeVecX * u.speed + u.seed,
   uv.2 * u.resolutionY / u.size + u.timeVecY * u.speed + u.seed)

/-- The unmasked UV-space displacement:
`vec2(fbm(noiseCoord), fbm(noiseCoord + vec2(43, 17))) * uAmountPx *
pixelSize` with `pixelSize = 1 / uResolution`. -/
noncomputable def rawDisplacement (u : ShaderUniforms) (uv : ℝ × ℝ) : ℝ × ℝ :=
  (fbm (noiseCoord u uv) (glslInt u.octaves) * u.amountPx * (1 / u.resolutionX),
   fbm ((noiseCoord u uv).1 + 43, (noiseCoord u uv).2 + 17) (glslInt u.octaves)
     * u.amountPx * (1 / u.resolutionY))

/-- The alpha-gradient edge mask: sample alpha at the four one-texel
cardinal neighbors, `gradient = length(vec2(aR - aL, aD - aU))`,
`edgeMask = smoothstep(uEdgeThreshold, uEdgeThreshold + 0.15, gradient)`. -/
noncomputable def edgeMaskAt (tex : ℝ × ℝ → Vec4) (u : ShaderUniforms)
    (uv : ℝ × ℝ) : ℝ :=
  smoothstep u.edgeThreshold (u.edgeThreshold + 0.15)
    (Real.sqrt
      (((tex (uv.1 + 1 / u.resolutionX, uv.2)).a
          - (tex (uv.1 - 1 / u.resolutionX, uv.2)).a) ^ 2
        + ((tex (uv.1, uv.2 + 1 / u.resolutionY)).a
          - (tex (uv.1, uv.2 - 1 / u.resolutionY)).a) ^ 2))

/-- The fragment shader's `main`: compute the unmasked displacement, scale
it by `mix(1.0, edgeMask, uEdgeStrength)`, and sample the source at the
displaced coordinate (alpha preserved from the sampled texel). -/
noncomputable def shaderMain (tex : ℝ × ℝ → Vec4) (u : ShaderUniforms)
    (uv : ℝ × ℝ) : Vec4 :=
  tex (uv.1 + (rawDisplacement u uv).1 * glslMix 1 (edgeMaskAt tex u uv) u.edgeStrength,
       uv.2 + (rawDisplacement u uv).2 * glslMix 1 (edgeMaskAt tex u uv) u.edgeStrength)

/-- Modelled from the spec: the comparator "as if the edge mask were never
computed" — the shader main body with the edge-mask block removed, sampling
at `uv + rawDisplacement` directly. -/
noncomputable def shaderMainUnmasked (tex : ℝ × ℝ → Vec4) (u : ShaderUniforms)
    (uv : ℝ × ℝ) : Vec4 :=
  tex (uv.1 + (rawDisplacement u uv).1, uv.2 + (rawDisplacement u uv).2)

/-- C6: with `edgeStrength = 0` the shader output equals the variant that
never computes the edge mask; with `edgeStrength = 1`, at a pixel whose
edge mask is 0 the displacement is exactly zero, so the output samples the
source at the undisplaced coordinate. -/
theorem edgeStrength_extremes (tex : ℝ × ℝ → Vec4) (u u1 : ShaderUniforms)
    (uv : ℝ × ℝ) (h0 : u.edgeStrength = 0) (h1 : u1.edgeStrength = 1)
    (hm : edgeMaskAt tex u1 uv = 0) :
    shaderMain tex u uv = shaderMainUnmasked tex u uv
    ∧ shaderMain tex u1 uv = tex uv := by
  constructor
  · unfold shaderMain shaderMainUnmasked
    rw [h0, show glslMix 1 (edgeMaskAt tex u uv) 0 = 1 from by unfold glslMix; ring,
      mul_one, mul_one]
  · unfold shaderMain
    rw [h1, hm, show glslMix 1 0 1 = 0 from by unfold glslMix; ring,
      mul_zero, mul_zero, add_zero, add_zero]

/-- Constant fully-opaque test texture (every texel `(0, 0, 0, 1)`). -/
noncomputable def texConst : ℝ × ℝ → Vec4 := fun _ => ⟨0, 0, 0, 1⟩

/-- Default-like uniforms with `edgeStrength = 0`, `edgeThreshold = 0.3`. -/
noncomputable def uniformsES0 : ShaderUniforms :=
  { resolutionX := 100, resolutionY := 100, timeVecX := 1, timeVecY := 0,
    amountPx := 4, size := 20, octaves := 3, speed := 1, seed := 0,
    edgeStrength := 0, edgeThreshold := 0.3 }

/-- Default-like uniforms with `edgeStrength = 1`, `edgeThreshold = 0.3`. -/
noncomputable def uniformsES1 : ShaderUniforms :=
  { resolutionX := 100, resolutionY := 100, timeVecX := 1, timeVecY := 0,
    amountPx := 4, size := 20, octaves := 3, speed := 1, seed := 0,
    edgeStrength := 1, edgeThreshold := 0.3 }

/-- Witness for `edgeStrength_extremes` on a constant fully-opaque texture
(alpha gradient 0 everywhere, hence edge mask 0 at threshold 0.3). -/
theorem edgeStrength_extremes_witness :
    (uniformsES0.edgeStrength = 0 ∧ uniformsES1.edgeStrength = 1
      ∧ edgeMaskAt texConst uniformsES1 (1 / 2, 1 / 2) = 0)
    ∧ (shaderMain texConst uniformsES0 (1 / 2, 1 / 2)
        = shaderMainUnmasked texConst uniformsES0 (1 / 2, 1 / 2)
      ∧ shaderMain texConst uniformsES1 (1 / 2, 1 / 2)
        = texConst ((1 : ℝ) / 2, (1 : ℝ) / 2)) := by
  have hmask : edgeMaskAt texConst uniformsES1 (1 / 2, 1 / 2) = 0 := by
    unfold edgeMaskAt smoothstep glslClamp texConst uniformsES1
    norm_num
  exact ⟨⟨rfl, rfl, hmask⟩,
    edgeStrength_extremes texConst uniformsES0 uniformsES1 (1 / 2, 1 / 2)
      rfl rfl hmask⟩

/-! ## Configuration (`src/types/config.ts`) -/

/-- `DisplacementConfig`, numeric fields as exact rationals. -/
structure DisplacementConfig where
  amountPx : ℚ
  size : ℚ
  octaves : ℚ
  speed : ℚ
  seed : ℚ
  edgeStrength : ℚ
  edgeThreshold : ℚ
  loopDuration : ℚ
  fps : ℚ
  bgTransparent : Bool
  bgColor : String
  posterize : ℚ
deriving DecidableEq

/-- `DEFAULT_CONFIG` from `src/types/config.ts`. -/
def DEFAULT_CONFIG : DisplacementConfig :=
  { amountPx := 4, size := 20, octaves := 3, speed := 1, seed := 0,
    edgeStrength := 0, edgeThreshold := 0.1, loopDuration := 3, fps := 24,
    bgTransparent := true, bgColor := "#ffffff", posterize := 0 }

/-- `Partial<DisplacementConfig>`: every field optional. -/
structure PartialConfig where
  amountPx : Option ℚ := none
  size : Option ℚ := none
  octaves : Option ℚ := none
  speed : Option ℚ := none
  seed : Option ℚ := none
  edgeStrength : Option ℚ := none
  edgeThreshold : Option ℚ := none
  loopDuration : Option ℚ := none
  fps : Option ℚ := none
  bgTransparent : Option Bool := none
  bgColor : Option String := none
  posterize : Option ℚ := none
deriving DecidableEq

/-- The spread `{ ...configRef.current, ...partial }` of `updateConfig`. -/
def mergeConfig (c : DisplacementConfig) (p : PartialConfig) : DisplacementConfig :=
  { amountPx := p.amountPx.getD c.amountPx
    size := p.size.getD c.size
    octaves := p.octaves.getD c.octaves
    speed := p.speed.getD c.speed
    seed := p.seed.getD c.seed
    edgeStrength := p.edgeStrength.getD c.edgeStrength
    edgeThreshold := p.edgeThreshold.getD c.edgeThreshold
    loopDuration := p.loopDuration.getD c.loopDuration
    fps := p.fps.getD c.fps
    bgTransparent := p.bgTransparent.getD c.bgTransparent
    bgColor := p.bgColor.getD c.bgColor
    posterize := p.posterize.getD c.posterize }

/-! ## Engine state machine (`src/lib/useDisplacementEngine.ts`)

Explicit state passing for the hook's mutable refs. Time stamps
(`performance.now()`) are passed in as parameters, in milliseconds; the
asynchronous `canvas.toBlob` extraction is an oracle `ℕ → Option Blob`
(frame index to extracted still, `none` for the `toBlob failed` rejection).
The background-compositing scalars (`updateBackground`) and the per-scalar
uniform pushes are not tracked: no claim refers to them, and they are
derived from the config copy that is tracked. -/

/-- A still-image blob (opaque byte payload). -/
structure Blob where
  bytes : List ℕ
deriving DecidableEq

/-- The displacement filter's tracked state: the phase `t` whose
`TimeVector t` is currently held by the `uTimeVec` uniform (the filter is
created with `uTimeVec = [1.0, 0.0] = TimeVector 0`), and the padding
`ceil(amountPx) + 2`. -/
structure FilterState where
  uniformsPhase : ℚ
  padding : ℤ
deriving DecidableEq

/-- The engine's mutable refs: PixiJS handles (`app`, `filter`, `sprite`),
`destroyedRef`, `configRef`, `startTimeRef`, and whether the live ticker is
running. -/
structure EngineState where
  appInit : Bool
  destroyed : Bool
  filter : Option FilterState
  spriteLoaded : Bool
  rendererW : ℚ
  rendererH : ℚ
  config : DisplacementConfig
  startTime : ℚ
  tickerRunning : Bool
deriving DecidableEq

/-- The error vocabulary. `engineNotInitialized` is the code's
`Error("Engine not initialized")` and `toBlobFailed` its
`Error("toBlob failed")`. Modelled from the spec: `exportBusy` and
`engineDestroyed` are the spec's `ExportBusy` and `EngineDestroyed`
errors, which appear nowhere in the source; they are included so theorems
can state whether the code ever raises them. -/
inductive EngineError
  | engineNotInitialized
  | toBlobFailed
  | exportBusy
  | engineDestroyed
deriving DecidableEq

/-- `loadImage` (lines 127–183): silently returns when `app`/`PIXI` are
null; otherwise resizes the renderer to the source dimensions and creates
the filter with `uTimeVec = [1.0, 0.0]` and padding `ceil(amountPx) + 2`. -/
def loadImage (srcW srcH : ℚ) (s : EngineState) :
    Except EngineError Unit × EngineState :=
  if !s.appInit then (.ok (), s)
  else
    (.ok (),
      { s with
        spriteLoaded := true
        rendererW := srcW
        rendererH := srcH
        filter := some { uniformsPhase := 0, padding := ⌈s.config.amountPx⌉ + 2 } })

/-- `updateConfig` (lines 185–204): merge the partial into the config copy;
when the filter exists, push the scalar uniforms (derived from the merged
config) and reset padding to `ceil(amountPx) + 2`. -/
def updateConfig (p : PartialConfig) (s : EngineState) :
    Except EngineError Unit × EngineState :=
  let cfg := mergeConfig s.config p
  (.ok (),
    { s with
      config := cfg
      filter := s.filter.map fun f => { f with padding := ⌈cfg.amountPx⌉ + 2 } })

/-- `destroy` (lines 260–268): set `destroyedRef`, destroy the app and
null out `app`, `filter`, `sprite` (which also stops the ticker). -/
def destroy (s : EngineState) : EngineState :=
  { s with
    destroyed := true
    appInit := false
    filter := none
    spriteLoaded := false
    tickerRunning := false }

/-- The live ticker callback (lines 93–111): return if the filter is null;
otherwise set `uTimeVec` to `TimeVector` of the live phase at elapsed
`(now - startTime) / 1000` seconds. -/
def tickerCallback (now : ℚ) (s : EngineState) : EngineState :=
  match s.filter with
  | none => s
  | some f =>
    let t := livePhase s.config.posterize s.config.loopDuration
      ((now - s.startTime) / 1000)
    { s with filter := some { f with uniformsPhase := t } }

/-- The export loop body (lines 224–249): for each `i`, set `uTimeVec` to
`TimeVector` of the export phase, render, and await `canvas.toBlob`; a
failed extraction rejects immediately. Returns the result together with
the phase last written to the uniform. -/
def exportLoop (extract : ℕ → Option Blob) (cfg : DisplacementConfig)
    (N : ℕ) : ℕ → ℕ → List Blob → ℚ → Except EngineError (List Blob) × ℚ
  | 0, _, acc, ph => (.ok acc, ph)
  | remaining + 1, i, acc, ph =>
    let t := exportPhase cfg.posterize cfg.loopDuration i N
    match extract i with
    | some b => exportLoop extract cfg N remaining (i + 1) (acc ++ [b]) t
    | none => (.error .toBlobFailed, t)

/-- `exportFrames` (lines 211–258): throw `Engine not initialized` when
`app` or `filter` is null; stop the ticker; run the deterministic loop; on
success restart the ticker, reset `startTimeRef` to `performance.now()`
(the completion instant `endTime`) and resolve with the blobs. A
mid-loop extraction failure rejects with the ticker still stopped (there
is no try/finally around the loop). -/
def exportFrames (extract : ℕ → Option Blob) (endTime : ℚ) (totalFrames : ℕ)
    (s : EngineState) : Except EngineError (List Blob) × EngineState :=
  match s.filter with
  | none => (.error .engineNotInitialized, s)
  | some f =>
    if !s.appInit then (.error .engineNotInitialized, s)
    else
      match exportLoop extract s.config totalFrames totalFrames 0 [] f.uniformsPhase with
      | (.ok blobs, ph) =>
        (.ok blobs,
          { s with
            tickerRunning := true
            startTime := endTime
            filter := some { f with uniformsPhase := ph } })
      | (.error e, ph) =>
        (.error e,
          { s with
            tickerRunning := false
            filter := some { f with uniformsPhase := ph } })

/-- The `uTimeVec`-phase of the engine's filter, when present. -/
def uniformPhase? (s : EngineState) : Option ℚ := s.filter.map FilterState.uniformsPhase

/-! ## Frame sinks and the export panel -/

/-- `Math.round(config.loopDuration * config.fps)` — the total frame count
(`ExportPanel.tsx` line 21 and both page-level export handlers).
JavaScript `Math.round(x)` is `⌊x + 1/2⌋`. -/
def totalFramesFor (loopDuration fps : ℚ) : ℤ := ⌊loopDuration * fps + 1 / 2⌋

/-- One entry of the ZIP produced by `fflate.zipSync`. -/
structure ZipEntry where
  name : String
  data : Blob
deriving DecidableEq

/-- Model of the `zipSync(files, { level })` call: the ordered entries and
the compression level option (0 = store). -/
structure ZipArchive where
  entries : List ZipEntry
  level : ℕ
deriving DecidableEq

/-- JavaScript `String(i).padStart(4, "0")`. -/
def padStart4 (s : String) : String :=
  String.mk (List.replicate (4 - s.length) '0') ++ s

/-- `exportPngSequence` from `src/lib/exportPngSequence.ts`: for each frame
`i` in order, add an entry named `frame_<String(i).padStart(4, "0")>.png`
with the frame's bytes, then `zipSync` at level 0 (store). -/
def exportPngSequence (frames : List Blob) : ZipArchive :=
  { entries := frames.enum.map fun ib =>
      { name := "frame_" ++ padStart4 (toString ib.1) ++ ".png", data := ib.2 }
    level := 0 }

/-- The result of `exportWebm`: the blob's MIME type and how many frames
were drawn and pushed to the recorder. -/
structure WebmResult where
  mimeType : String
  frameCount : ℕ
deriving DecidableEq

/-- Modelled from the spec: the spec's `EncoderUnavailable` error, raised
nowhere in `src/lib/exportWebm.ts`; included so theorems can state whether
the code ever reports it. -/
inductive WebmError
  | encoderUnavailable
deriving DecidableEq

/-- `exportWebm` from `src/lib/exportWebm.ts`: pick
`"video/webm;codecs=vp9"` when `MediaRecorder.isTypeSupported` says so,
else fall back to plain `"video/webm"`; draw and push every frame; always
resolve with the recording, typed with the chosen MIME type. The browser
recorder/stream machinery is external; what the model keeps is the
codec selection, the absence of any failure path for it, and the frame
count pushed. -/
def exportWebm (isTypeSupported : String → Bool) (frames : List Blob) :
    Except WebmError WebmResult :=
  let mimeType :=
    if isTypeSupported "video/webm;codecs=vp9" then "video/webm;codecs=vp9"
    else "video/webm"
  .ok { mimeType := mimeType, frameCount := frames.length }

/-- The two export kinds of `ExportPanel.tsx`. -/
inductive ExportKind
  | webm
  | png
deriving DecidableEq

/-- `ExportPanel.tsx` button guard: `disabled={!hasImage || exporting !==
null}` (lines 49 and 57); `exporting` is set before `handleExport` awaits
and cleared in its `finally`. -/
def exportButtonDisabled (hasImage : Bool) (exporting : Option ExportKind) : Bool :=
  !hasImage || exporting.isSome

/-! ## Concrete engine states for evaluations -/

/-- A loaded, running engine: app initialized, filter present with
`uTimeVec = TimeVector 0` and padding `ceil(4) + 2 = 6`, default config,
ticker running. -/
def readyState : EngineState :=
  { appInit := true, destroyed := false,
    filter := some { uniformsPhase := 0, padding := 6 },
    spriteLoaded := true, rendererW := 100, rendererH := 100,
    config := DEFAULT_CONFIG, startTime := 0, tickerRunning := true }

/-- `readyState` as a first export in flight observes it at an `await`
suspension point: the ticker has been stopped by that export. -/
def midExportState : EngineState := { readyState with tickerRunning := false }

/-- The engine state after `readyState` completes a successful 2-frame
export at time 5000 ms: ticker restarted, `startTimeRef` reset, `uTimeVec`
left at the last exported phase 1/2. -/
def exportedState : EngineState :=
  { readyState with
    startTime := 5000,
    filter := some { uniformsPhase := 1 / 2, padding := 6 } }

/-- Decidable equality of `Except` results, for concrete evaluations. -/
instance {ε α : Type} [DecidableEq ε] [DecidableEq α] :
    DecidableEq (Except ε α) := fun x y =>
  match x, y with
  | .error e, .error f =>
    if h : e = f then .isTrue (congrArg Except.error h)
    else .isFalse fun hc => h (Except.error.inj hc)
  | .error _, .ok _ => .isFalse fun hc => Except.noConfusion hc
  | .ok _, .error _ => .isFalse fun hc => Except.noConfusion hc
  | .ok a, .ok b =>
    if h : a = b then .isTrue (congrArg Except.ok h)
    else .isFalse fun hc => h (Except.ok.inj hc)

/-! ## C3: ticker resumption after a failed export -/

/-- C3 (evaluation of the failing input): when `canvas.toBlob` fails at
frame 0 of a 1-frame export from a live engine, `exportFrames` rejects
with the `toBlob failed` error and the live ticker is left stopped — the
loop has no try/finally, so the claimed unconditional resumption does not
happen on the error path. -/
theorem export_failure_leaves_ticker_stopped :
    (exportFrames (fun _ => none) 1000 1 readyState).1 = .error .toBlobFailed
    ∧ ((exportFrames (fun _ => none) 1000 1 readyState).2).tickerRunning = false := by
  norm_num [exportFrames, exportLoop, exportPhase, posterizePhase, readyState,
    DEFAULT_CONFIG]

/-! ## C4: no ExportBusy guard -/

/-- C4 counterexample: a second `exportFrames` call made while a first
export is in flight (which has stopped the ticker) runs to completion and
resolves with frames instead of failing with `ExportBusy`. -/
theorem second_export_not_busy :
    (exportFrames (fun _ => some { bytes := [] }) 2000 2 midExportState).1
      = .ok [{ bytes := [] }, { bytes := [] }]
    ∧ (exportFrames (fun _ => some { bytes := [] }) 2000 2 midExportState).1
      ≠ .error .exportBusy := by
  norm_num [exportFrames, exportLoop, exportPhase, posterizePhase,
    midExportState, readyState, DEFAULT_CONFIG]
  exact fun hc => Except.noConfusion hc

/-- The export loop can only resolve or reject with `toBlobFailed`; it
never produces `exportBusy`. -/
theorem exportLoop_never_busy (extract : ℕ → Option Blob)
    (cfg : DisplacementConfig) (N : ℕ) :
    ∀ (fuel i : ℕ) (acc : List Blob) (ph : ℚ),
      (exportLoop extract cfg N fuel i acc ph).1 ≠ .error .exportBusy := by
  intro fuel
  induction fuel with
  | zero => intro i acc ph; simp [exportLoop]
  | succ fuel ih =>
    intro i acc ph
    rcases h : extract i with _ | b
    · simp [exportLoop, h]
    · simp only [exportLoop, h]
      exact ih (i + 1) (acc ++ [b]) _

/-- C4 amended: the engine has no concurrency guard — `exportFrames`
never fails with `ExportBusy`, whatever state it is called in (a second
in-flight call simply runs); mutual exclusion exists only in the UI,
where `ExportPanel` disables both export buttons whenever an export is in
flight (`exporting` non-null). -/
theorem no_exportBusy_guard :
    (∀ (extract : ℕ → Option Blob) (endTime : ℚ) (N : ℕ) (s : EngineState),
      (exportFrames extract endTime N s).1 ≠ .error .exportBusy)
    ∧ (∀ (hasImage : Bool) (exporting : Option ExportKind),
        exporting ≠ none → exportButtonDisabled hasImage exporting = true) := by
  constructor
  · intro extract endTime N s
    unfold exportFrames
    rcases hf : s.filter with _ | f
    · simp
    · by_cases happ : s.appInit
      · simp only [happ, Bool.not_true, Bool.false_eq_true, if_false]
        rcases hres : exportLoop extract s.config N N 0 [] f.uniformsPhase
          with ⟨res, ph⟩
        have hne := exportLoop_never_busy extract s.config N N 0 [] f.uniformsPhase
        rw [hres] at hne
        cases res with
        | ok blobs => simp
        | error e => simpa using hne
      · simp [happ]
  · intro hasImage exporting hne
    rcases exporting with _ | k
    · exact absurd rfl hne
    · simp [exportButtonDisabled]

/-- Witness for `no_exportBusy_guard` at a concrete engine state and the
concrete panel state `exporting = some png`. -/
theorem no_exportBusy_guard_witness :
    ((exportFrames (fun _ => some { bytes := [] }) 0 1 readyState).1
      ≠ .error .exportBusy)
    ∧ (some ExportKind.png ≠ none
      ∧ exportButtonDisabled true (some ExportKind.png) = true) :=
  ⟨no_exportBusy_guard.1 (fun _ => some { bytes := [] }) 0 1 readyState,
    by decide,
    no_exportBusy_guard.2 true (some ExportKind.png) (by decide)⟩

/-! ## C7: PNG sequence sink -/

/-- A resolving export loop appends exactly one blob per remaining
iteration. -/
theorem exportLoop_ok_length (extract : ℕ → Option Blob)
    (cfg : DisplacementConfig) (N : ℕ) :
    ∀ (fuel i : ℕ) (acc : List Blob) (ph : ℚ) (blobs : List Blob) (phEnd : ℚ),
      exportLoop extract cfg N fuel i acc ph = (.ok blobs, phEnd)
        → blobs.length = acc.length + fuel := by
  intro fuel
  induction fuel with
  | zero =>
    intro i acc ph blobs phEnd h
    simp only [exportLoop, Prod.mk.injEq, Except.ok.injEq] at h
    obtain ⟨hb, -⟩ := h
    subst hb
    simp
  | succ fuel ih =>
    intro i acc ph blobs phEnd h
    rcases hx : extract i with _ | b
    · rw [exportLoop, hx] at h
      simp at h
    · rw [exportLoop, hx] at h
      have := ih (i + 1) (acc ++ [b]) _ blobs phEnd h
      simp only [List.length_append, List.length_cons, List.length_nil] at this
      omega

/-- C7: a successful `exportFrames` call requested with count `N` resolves
with exactly `N` frames; and `exportPngSequence`, fed the caller-computed
`round(loopDuration * fps)` many frames, stores the archive uncompressed
(level 0) with exactly one entry per frame: entry `j` exists iff frame `j`
exists, is named `frame_<j zero-padded to 4 digits>.png`, and carries frame
`j`'s bytes, in frame order. -/
theorem png_sequence_spec (loopDuration fps : ℚ) (frames : List Blob)
    (h : (frames.length : ℤ) = totalFramesFor loopDuration fps) :
    ((exportPngSequence frames).entries.length : ℤ)
        = totalFramesFor loopDuration fps
    ∧ (exportPngSequence frames).level = 0
    ∧ (∀ j : ℕ,
        (exportPngSequence frames).entries[j]?
          = (frames[j]?).map fun b =>
              { name := "frame_" ++ padStart4 (toString j) ++ ".png", data := b })
    ∧ (∀ (extract : ℕ → Option Blob) (endTime : ℚ) (N : ℕ) (s s' : EngineState)
        (blobs : List Blob),
          exportFrames extract endTime N s = (.ok blobs, s')
            → blobs.length = N) := by
  refine ⟨?_, rfl, ?_, ?_⟩
  · rw [← h]
    norm_cast
    simp [exportPngSequence]
  · intro j
    simp only [exportPngSequence, List.getElem?_map, List.getElem?_enum,
      Option.map_map]
    rcases frames[j]? with _ | b <;> rfl
  · intro extract endTime N s s' blobs hrun
    unfold exportFrames at hrun
    rcases hf : s.filter with _ | f
    · rw [hf] at hrun
      simp at hrun
    · rw [hf] at hrun
      by_cases happ : s.appInit
      · simp only [happ, Bool.not_true, Bool.false_eq_true, if_false] at hrun
        rcases hres : exportLoop extract s.config N N 0 [] f.uniformsPhase
          with ⟨res, ph⟩
        rw [hres] at hrun
        cases res with
        | error e => simp at hrun
        | ok bl =>
          simp only [Prod.mk.injEq, Except.ok.injEq] at hrun
          obtain ⟨hb, -⟩ := hrun
          subst hb
          have := exportLoop_ok_length extract s.config N N 0 [] f.uniformsPhase
            bl ph hres
          simpa using this
      · simp [happ] at hrun

/-- At loop duration 3 s and 24 fps the caller-computed total is
`round(3 * 24) = 72`. -/
theorem totalFrames_3_24 : totalFramesFor 3 24 = 72 := by
  unfold totalFramesFor
  rw [Int.floor_eq_iff]
  constructor <;> norm_num

/-- Witness for `png_sequence_spec` at loop duration 3 s, 24 fps,
72 frames. -/
theorem png_sequence_spec_witness :
    ((List.replicate 72 ({ bytes := [] } : Blob)).length : ℤ)
        = totalFramesFor 3 24
    ∧ (exportPngSequence (List.replicate 72 { bytes := [] })).level = 0 :=
  ⟨by rw [totalFrames_3_24]; simp,
    (png_sequence_spec 3 24 (List.replicate 72 { bytes := [] })
      (by rw [totalFrames_3_24]; simp)).2.1⟩

/-! ## C8: WebM codec fallback -/

/-- C8 counterexample: when the VP9 (alpha-capable) profile is
unsupported, `exportWebm` resolves successfully with the non-alpha
`video/webm` fallback type — no `EncoderUnavailable` error or any other
explicit degradation report reaches the caller. -/
theorem webm_fallback_silent :
    exportWebm (fun _ => false) [{ bytes := [] }]
      = .ok { mimeType := "video/webm", frameCount := 1 }
    ∧ exportWebm (fun _ => false) [{ bytes := [] }]
      ≠ .error .encoderUnavailable := by
  decide

/-- C8 amended: when the VP9 profile is unavailable the video sink falls
back to the non-alpha `video/webm` profile and succeeds, never raising
any error; the degradation is observable only through the MIME type
carried by the returned blob, not through an explicit report. -/
theorem webm_mime_fallback (isTypeSupported : String → Bool)
    (frames : List Blob)
    (h : isTypeSupported "video/webm;codecs=vp9" = false) :
    exportWebm isTypeSupported frames
      = .ok { mimeType := "video/webm", frameCount := frames.length }
    ∧ ∀ e : WebmError, exportWebm isTypeSupported frames ≠ .error e := by
  constructor
  · simp [exportWebm, h]
  · intro e
    simp [exportWebm]

/-- Witness for `webm_mime_fallback` with no supported types and an empty
frame list. -/
theorem webm_mime_fallback_witness :
    ((fun _ : String => false) "video/webm;codecs=vp9" = false)
    ∧ exportWebm (fun _ => false) ([] : List Blob)
        = .ok { mimeType := "video/webm", frameCount := 0 } :=
  ⟨rfl, (webm_mime_fallback (fun _ => false) [] rfl).1⟩

/-! ## C9: calls after destroy -/

/-- C9 counterexample: after `destroy`, `loadImage` returns successfully
without doing anything — it does not reject, with `EngineDestroyed` or
with anything else. -/
theorem destroyed_loadImage_silently_noops :
    loadImage 50 60 (destroy readyState) = (.ok (), destroy readyState)
    ∧ (loadImage 50 60 (destroy readyState)).1 ≠ .error .engineDestroyed :=
  ⟨rfl, by decide⟩

/-- C9 amended: after `destroy`, `exportFrames` rejects with the generic
`Engine not initialized` error (not a distinct `EngineDestroyed`);
`loadImage` silently no-ops, leaving the state unchanged; and
`updateConfig` does not reject either — it still merges the partial into
the engine's config copy. -/
theorem destroyed_engine_behavior (s : EngineState) (srcW srcH : ℚ)
    (p : PartialConfig) (extract : ℕ → Option Blob) (endTime : ℚ) (N : ℕ) :
    (exportFrames extract endTime N (destroy s)).1
        = .error .engineNotInitialized
    ∧ loadImage srcW srcH (destroy s) = (.ok (), destroy s)
    ∧ (updateConfig p (destroy s)).1 = .ok ()
    ∧ (updateConfig p (destroy s)).2.config = mergeConfig s.config p :=
  ⟨rfl, rfl, rfl, rfl⟩

/-! ## C10: time origin reset after a successful export -/

/-- The live phase at elapsed time 0 is 0 for every posterize /
loop-duration pair. -/
theorem livePhase_at_zero (pz ld : ℚ) : livePhase pz ld 0 = 0 := by
  unfold livePhase jsMod1 jsTrunc posterizePhase
  rw [zero_div]
  norm_num

/-- C10: every successful `exportFrames` call resets `startTimeRef` to the
completion instant and restarts the ticker, so the first live tick at that
instant computes elapsed 0 and writes phase 0 to `uTimeVec` — the live
preview resumes at phase 0 regardless of the phase shown when the export
began. -/
theorem export_resets_time_origin (extract : ℕ → Option Blob) (endTime : ℚ)
    (N : ℕ) (s s' : EngineState) (blobs : List Blob)
    (h : exportFrames extract endTime N s = (.ok blobs, s')) :
    s'.startTime = endTime ∧ s'.tickerRunning = true
    ∧ uniformPhase? (tickerCallback endTime s') = some 0 := by
  unfold exportFrames at h
  rcases hf : s.filter with _ | f
  · rw [hf] at h
    simp at h
  · rw [hf] at h
    by_cases happ : s.appInit
    · simp only [happ, Bool.not_true, Bool.false_eq_true, if_false] at h
      rcases hres : exportLoop extract s.config N N 0 [] f.uniformsPhase
        with ⟨res, ph⟩
      rw [hres] at h
      cases res with
      | error e => simp at h
      | ok bl =>
        simp only [Prod.mk.injEq, Except.ok.injEq] at h
        obtain ⟨-, hs⟩ := h
        subst hs
        refine ⟨rfl, rfl, ?_⟩
        unfold tickerCallback uniformPhase?
        rw [sub_self, zero_div, livePhase_at_zero]
        rfl
    · simp [happ] at h

/-- A concrete successful 2-frame export from `readyState` completing at
5000 ms, evaluated. -/
theorem readyState_export_run :
    exportFrames (fun _ => some { bytes := [] }) 5000 2 readyState
      = (.ok [{ bytes := [] }, { bytes := [] }], exportedState) := by
  norm_num [exportFrames, exportLoop, exportPhase, posterizePhase, readyState,
    exportedState, DEFAULT_CONFIG]

/-- Witness for `export_resets_time_origin`: a concrete successful
2-frame export from `readyState` completing at 5000 ms. -/
theorem export_resets_time_origin_witness :
    (exportFrames (fun _ => some { bytes := [] }) 5000 2 readyState
        = (.ok [{ bytes := [] }, { bytes := [] }], exportedState))
    ∧ (exportedState.startTime = 5000 ∧ exportedState.tickerRunning = true
      ∧ uniformPhase? (tickerCallback 5000 exportedState) = some 0) :=
  ⟨readyState_export_run,
    export_resets_time_origin (fun _ => some { bytes := [] }) 5000 2 readyState
      exportedState [{ bytes := [] }, { bytes := [] }] readyState_export_run⟩

end Afterink
